import Mathlib

/-!
Verification development for the flow-classification pipeline
(`ml_inference.py`, `ml_rest_server.py`, `classify_flows.py`).

Shallow embedding conventions:
* Python/pandas floating-point values are modelled as rationals (`ℚ`);
  none of the properties below depends on binary floating-point rounding,
  and non-finite values (inf/nan literals inside numeric strings) are
  outside the model.
* A pandas `DataFrame` of canonical feature rows is modelled as a
  `List` of rows; the classifiers score rows independently (the spec's
  external "classifier capability" interface is per-row), so the numpy
  column-wise operations become `List.map`.
* Fallible Python code (exceptions) is modelled with `Except`.
-/

namespace NSA

/-- A scalar value held by one cell of a raw (pre-coercion) feature row:
a Python `str`, `int`, `float` (as `ℚ`), `bool`, or a missing value
(`None` / `NaN`).  Container values (lists/dicts) never reach the
coercion step on the inputs the claims quantify over and are collapsed
to their string form by the adapters' cell conversion below. -/
inductive Cell where
  | str (s : String)
  | int (n : Int)
  | float (q : ℚ)
  | bool (b : Bool)
  | none
deriving DecidableEq, Repr

/-- ASCII model of Python `str.lower()` (all labels in this code base are
ASCII). -/
def pyLower (s : String) : String :=
  String.mk (s.data.map Char.toLower)

/-- Rendering of a cell to text, as pandas `Series.astype(str)` does in
`_ensure_types` (ml_inference.py line 200): a string stays itself, an
integer or float prints its value, a boolean prints `True`/`False`, and
a missing value renders as the string `"nan"`. -/
def pyStr : Cell → String
  | .str s => s
  | .int n => toString n
  | .float q => toString q
  | .bool b => if b then "True" else "False"
  | .none => "nan"

/-- Parse the digits of a string as a natural number; `Option.none` when the
string is empty or holds a non-digit. -/
def digitsToNat (l : List Char) : Option Nat :=
  match l with
  | [] => Option.none
  | _ =>
    l.foldl (fun acc c =>
      match acc with
      | Option.none => Option.none
      | some n => if c.isDigit then some (n * 10 + (c.toNat - 48)) else Option.none)
      (some 0)

/-- Parse a decimal numeral string (optional sign, digits, optional
fractional part), as `pd.to_numeric` accepts in `_ensure_types`;
`Option.none` on anything else.  Scientific notation and the special
float spellings (`inf`, `nan`) are outside the model. -/
def parseNum (s : String) : Option ℚ :=
  let (neg, body) :=
    match s.data with
    | '-' :: rest => (true, rest)
    | '+' :: rest => (false, rest)
    | l => (false, l)
  let signed : ℚ → ℚ := fun q => if neg then Rat.neg q else q
  match body.splitOn '.' with
  | [intPart] =>
    (digitsToNat intPart).map (fun n => signed (mkRat n 1))
  | [intPart, fracPart] =>
    match intPart, fracPart with
    | [], [] => Option.none
    | [], f =>
      (digitsToNat f).map (fun n => signed (mkRat n (10 ^ f.length)))
    | i, [] =>
      (digitsToNat i).map (fun n => signed (mkRat n 1))
    | i, f =>
      match digitsToNat i, digitsToNat f with
      | some a, some b =>
        some (signed (mkRat (a * 10 ^ f.length + b) (10 ^ f.length)))
      | _, _ => Option.none
  | _ => Option.none

/-- `pd.to_numeric(col, errors="coerce")` on one cell: numbers pass
through, booleans become 0/1, numeric strings parse, everything else
(including a missing value) becomes `Option.none` (pandas `NaN`). -/
def toNumeric : Cell → Option ℚ
  | .str s => parseNum s
  | .int n => some (mkRat n 1)
  | .float q => some q
  | .bool b => some (if b then mkRat 1 1 else mkRat 0 1)
  | .none => Option.none

/-- Truncation toward zero, as numpy `astype(int)` applies to finite
floats. -/
def ratTrunc (q : ℚ) : Int :=
  q.num.tdiv q.den

/-- The integer coercion of `_ensure_types` for the packet/byte columns:
`pd.to_numeric(col, errors="coerce").fillna(0).astype(int)`. -/
def coerceInt (c : Cell) : Int :=
  ratTrunc ((toNumeric c).getD 0)

/-- The float coercion of `_ensure_types` for the `dur` column:
`pd.to_numeric(col, errors="coerce").fillna(0.0).astype(float)`. -/
def coerceFloat (c : Cell) : ℚ :=
  (toNumeric c).getD 0

/-- A raw canonical-schema row before type coercion: the seven feature
cells in manifest order. -/
structure RawRow where
  proto : Cell
  service : Cell
  spkts : Cell
  dpkts : Cell
  sbytes : Cell
  dbytes : Cell
  dur : Cell
deriving DecidableEq, Repr

/-- A coerced canonical feature row, the dtype contract `_ensure_types`
establishes: text `proto`/`service`, integer packet/byte counts, float
duration. -/
structure Row where
  proto : String
  service : String
  spkts : Int
  dpkts : Int
  sbytes : Int
  dbytes : Int
  dur : ℚ
deriving DecidableEq, Repr

/-- `_ensure_types` (ml_inference.py lines 189-209) on one row: `proto`
and `service` via `astype(str)`, the four count columns via
`to_numeric(...).fillna(0).astype(int)`, and `dur` via
`to_numeric(...).fillna(0.0).astype(float)`. -/
def ensureTypes (r : RawRow) : Row :=
  { proto := pyStr r.proto
    service := pyStr r.service
    spkts := coerceInt r.spkts
    dpkts := coerceInt r.dpkts
    sbytes := coerceInt r.sbytes
    dbytes := coerceInt r.dbytes
    dur := coerceFloat r.dur }

/-- Re-inject a coerced row as a raw row (the dataframe produced by
`_ensure_types`, viewed again as input to `_ensure_types`). -/
def Row.toRaw (r : Row) : RawRow :=
  { proto := .str r.proto
    service := .str r.service
    spkts := .int r.spkts
    dpkts := .int r.dpkts
    sbytes := .int r.sbytes
    dbytes := .int r.dbytes
    dur := .float r.dur }

/-- Human-readable names for the tri-class outputs
(`TRI_LABEL_NAMES` in ml_inference.py lines 29-33).  The source is a
three-key dictionary over 0/1/2; the hierarchical pipeline only ever
produces those three codes (proved below), so the catch-all branch is
unreachable on its outputs. -/
def TRI_LABEL_NAMES : Nat → String
  | 0 => "normal"
  | 1 => "dos"
  | _ => "other_attack"

/-- The artifacts `predict_hier_from_df` consumes (`load_hier_artifacts`
result, scoring view): the spec's per-row classifier capability gives a
positive-class probability for each canonical row, plus the two
deployment thresholds. -/
structure HierArt where
  pipeBin : Row → ℚ
  pipeDos : Row → ℚ
  t1 : ℚ
  t2 : ℚ

/-- Stage-1 gate of `predict_hier_from_df`:
`s_bin >= art["t1"]` (ml_inference.py line 140). -/
def isMal (art : HierArt) (r : Row) : Bool :=
  decide (art.t1 ≤ art.pipeBin r)

/-- The internal full-length Stage-2 score vector entry of
`predict_hier_from_df` (lines 144-145): the array is initialised to 0
and overwritten, at malicious indices only, with the Stage-2
positive-class probability. -/
def sDos (art : HierArt) (r : Row) : ℚ :=
  if isMal art r then art.pipeDos r else 0

/-- The tri-class code of one row in `predict_hier_from_df`
(lines 142-146): default 0 (normal); at malicious indices the code
computes `(s_dos >= t2).astype(int) + 1`, so a Stage-2 score at or
above `t2` yields code 2 and a score below `t2` yields code 1.  Read
through `TRI_LABEL_NAMES` this assigns `other_attack` to high DoS
scores and `dos` to low ones — the opposite of the line's own
`# 1=DoS, 2=Other` comment and of the function's docstring. -/
def triOf (art : HierArt) (r : Row) : Nat :=
  if isMal art r then (if decide (art.t2 ≤ sDos art r) then 2 else 1) else 0

/-- The dictionary returned by `predict_hier_from_df`. -/
structure HierOut where
  binaryScores : List ℚ
  binaryLabels : List Nat
  triLabels : List Nat
deriving DecidableEq, Repr

/-- `predict_hier_from_df` (ml_inference.py lines 126-152) on a feature
table: per-row Stage-1 scores, thresholded binary labels, and the
gated tri-class labels.  The numpy column operations (elementwise
comparison, boolean-mask assignment) become per-row maps; the
`is_mal.any()` guard is behaviour-preserving because when no row is
malicious the masked assignments are no-ops. -/
def predictHierFromDf (art : HierArt) (df : List Row) : HierOut :=
  { binaryScores := df.map art.pipeBin
    binaryLabels := df.map (fun r => if isMal art r then 1 else 0)
    triLabels := df.map (triOf art) }

/-- The internal `s_dos` array of `predict_hier_from_df`
(lines 144-145) for a whole table. -/
def sDosVec (art : HierArt) (df : List Row) : List ℚ :=
  df.map (sDos art)

/-- The `final_label` column `save_predictions_csv` derives (line 181):
`df_out["tri_label"].map(TRI_LABEL_NAMES)`. -/
def finalLabels (art : HierArt) (df : List Row) : List String :=
  (predictHierFromDf art df).triLabels.map TRI_LABEL_NAMES

/-- One row of the table `save_predictions_csv` writes in hierarchical
mode (ml_inference.py lines 155-184): the input features plus the
derived columns `bin_prob_mal`, `bin_label`, `tri_label`,
`final_label`. -/
structure DfOutRow where
  features : Row
  bin_prob_mal : ℚ
  bin_label : Nat
  tri_label : Nat
  final_label : String
deriving DecidableEq, Repr

/-- `save_predictions_csv(df, out, mode="hier")`: the written table
(column-wise assignment of the `predict_hier_from_df` outputs, viewed
row-wise). -/
def save_predictions_csv_hier (art : HierArt) (df : List Row) : List DfOutRow :=
  df.map (fun r =>
    { features := r
      bin_prob_mal := art.pipeBin r
      bin_label := if isMal art r then 1 else 0
      tri_label := triOf art r
      final_label := TRI_LABEL_NAMES (triOf art r) })

/-- `_is_attack_label` (ml_rest_server.py lines 80-89): an int-like raw
output (Python `bool` is int-like) is malicious exactly when it equals
1; any other raw output is malicious unless its lower-cased string form
is `"normal"`. -/
def is_attack_label : Cell → Bool
  | .int n => n == 1
  | .bool b => b
  | c => pyLower (pyStr c) != "normal"

/-- `_is_dos_label` (ml_rest_server.py lines 92-101): an int-like raw
output is DoS exactly when it equals 1; any other raw output is DoS
exactly when its lower-cased string form is `"dos"`. -/
def is_dos_label : Cell → Bool
  | .int n => n == 1
  | .bool b => b
  | c => pyLower (pyStr c) == "dos"

/-- The two models the REST server loads (ml_rest_server.py lines
54-56), exposed through the spec's per-row `predict` capability: the
raw output of `model.predict(df)[0]` on the one-row frame built from
the request. -/
structure ServeModels where
  modelBin : Row → Cell
  modelDos : Row → Cell

/-- The response dictionary of `classify_flow`
(ml_rest_server.py lines 127-131). -/
structure ServeOut where
  bin_label : String
  dos_vs_other_label : Option String
  final_label : String
deriving DecidableEq, Repr

/-- `classify_flow` (ml_rest_server.py lines 104-131): run the binary
model on the one-row frame, normalise its raw output, and only when it
says attack run the dos-vs-other model, with the subtype becoming the
final label. -/
def classify_flow (m : ServeModels) (row : Row) : ServeOut :=
  let is_attack := is_attack_label (m.modelBin row)
  let bl := if is_attack then "attack" else "normal"
  if is_attack then
    let is_dos := is_dos_label (m.modelDos row)
    let d := if is_dos then "dos" else "other_attack"
    { bin_label := bl, dos_vs_other_label := some d, final_label := d }
  else
    { bin_label := bl, dos_vs_other_label := Option.none, final_label := "normal" }

/-- The spec's full classifier capability (§6): a per-row class label
(`predict`) and a per-row positive-class probability (`predict_proba`).
The two entry points consume different halves of it. -/
structure Classifier where
  predict : Row → Cell
  predictProba : Row → ℚ

/-- One artifact bundle shared by both entry points: the two classifier
capabilities and the two deployment thresholds. -/
structure Bundle where
  pipeBin : Classifier
  pipeDos : Classifier
  t1 : ℚ
  t2 : ℚ

/-- The scoring view of a bundle, as `predict_hier_from_df` uses it
(`predict_proba` plus thresholds). -/
def bundleArt (b : Bundle) : HierArt :=
  { pipeBin := b.pipeBin.predictProba
    pipeDos := b.pipeDos.predictProba
    t1 := b.t1
    t2 := b.t2 }

/-- The serving view of the same bundle, as `classify_flow` uses it
(`predict` raw labels only; the thresholds are not consulted by
ml_rest_server.py). -/
def serveView (b : Bundle) : ServeModels :=
  { modelBin := b.pipeBin.predict
    modelDos := b.pipeDos.predict }

/-- Name of a thresholded binary label (0 = normal, 1 = attack), the
correspondence §6 fixes between the batch numeric labels and the
serving text labels. -/
def binName : Nat → String
  | 0 => "normal"
  | _ => "attack"

/-- The Batch Runner's output for a one-row table in hierarchical mode,
rendered on the serving response schema: binary label by `binName`,
subtype defined exactly when the tri code is non-zero, final label by
`TRI_LABEL_NAMES`. -/
def batchSingle (b : Bundle) (row : Row) : ServeOut :=
  let out := predictHierFromDf (bundleArt b) [row]
  let bl := out.binaryLabels.headD 0
  let t := out.triLabels.headD 0
  { bin_label := binName bl
    dos_vs_other_label := if t == 0 then Option.none else some (TRI_LABEL_NAMES t)
    final_label := TRI_LABEL_NAMES t }

/-- A JSON value, as Python's `json` module produces it (`json.loads` of
one log line, or `json.load` of an artifact file): numerals without a
decimal point become `int`, the rest `float`. -/
inductive JVal where
  | jnull
  | jbool (b : Bool)
  | jint (n : Int)
  | jfloat (q : ℚ)
  | jstr (s : String)
  | jarr (xs : List JVal)
  | jobj (fields : List (String × JVal))

/-- Content of one file in the artifact directory: a loadable binary
artifact (joblib), a file whose text parses as JSON, or a file that
parses as neither. -/
inductive FileContent where
  | binary
  | json (j : JVal)
  | invalid

/-- The file system visible to the loaders: paths mapped to contents;
a path absent from the list does not exist (a non-existent artifact
directory is the state where none of its paths exist). -/
structure FS where
  files : List (String × FileContent)

/-- `os.path.join(art_dir, name)` for the relative names used here. -/
def pathJoin (d f : String) : String := d ++ "/" ++ f

def lookupFile (fs : FS) (p : String) : Option FileContent :=
  fs.files.lookup p

/-- Exceptions the loading code can raise: `FileNotFoundError` from
`open`/`joblib.load`, `json.JSONDecodeError` from `json.load`,
`KeyError`/`TypeError` from subscripting the parsed value. -/
inductive LoadErr where
  | fileNotFound (path : String)
  | jsonError (path : String)
  | keyError (key : String)
deriving DecidableEq, Repr

/-- `joblib.load(path)`: succeeds exactly when the file exists (the
artifact bytes themselves are opaque to this development). -/
def joblib_load (fs : FS) (p : String) : Except LoadErr Unit :=
  match lookupFile fs p with
  | some _ => .ok ()
  | Option.none => .error (.fileNotFound p)

/-- `json.load(open(path))`: `FileNotFoundError` when the file is
absent, `JSONDecodeError` when its text is not JSON, otherwise the
parsed value — whatever JSON value that is, with no validation. -/
def readJson (fs : FS) (p : String) : Except LoadErr JVal :=
  match lookupFile fs p with
  | some (.json j) => .ok j
  | some _ => .error (.jsonError p)
  | Option.none => .error (.fileNotFound p)

/-- Python `d[k]` on a parsed JSON value: field lookup on an object
(keys assumed distinct, as `json` keeps one value per key),
nothing on anything else. -/
def jGet : JVal → String → Option JVal
  | .jobj fields, k => fields.lookup k
  | _, _ => Option.none

/-- `json.load(f)["threshold"]`-style subscripting: `KeyError` when the
key is missing, `TypeError` when the value is not an object — both
modelled as the same fatal error. -/
def getKey (j : JVal) (k : String) : Except LoadErr JVal :=
  match jGet j k with
  | some v => .ok v
  | Option.none => .error (.keyError k)

/-- `get_feature_list` (ml_inference.py lines 40-45): parse
`features.json` and return the parsed value as-is — the code never
checks that it is a non-empty list, or a list at all. -/
def get_feature_list (fs : FS) (artDir : String) : Except LoadErr JVal :=
  readJson fs (pathJoin artDir "features.json")

/-- What `load_hier_artifacts` returns (ml_inference.py line 85), with
the opaque model objects elided: the two threshold values exactly as
parsed, and the feature manifest exactly as parsed. -/
structure HierBundleRaw where
  t1 : JVal
  t2 : JVal
  feats : JVal

/-- `load_hier_artifacts` (ml_inference.py lines 68-85), in source
order: load the two model files, read the two threshold files and
subscript `"threshold"`, read the feature manifest; the first failure
propagates and nothing is returned. -/
def load_hier_artifacts (fs : FS) (artDir : String) : Except LoadErr HierBundleRaw :=
  match joblib_load fs (pathJoin artDir "rf_bin.joblib") with
  | .error e => .error e
  | .ok _ =>
    match joblib_load fs (pathJoin artDir "rf_dos_vs_other.joblib") with
    | .error e => .error e
    | .ok _ =>
      match readJson fs (pathJoin artDir "bin_threshold.json") with
      | .error e => .error e
      | .ok j1 =>
        match getKey j1 "threshold" with
        | .error e => .error e
        | .ok t1 =>
          match readJson fs (pathJoin artDir "dos_threshold.json") with
          | .error e => .error e
          | .ok j2 =>
            match getKey j2 "threshold" with
            | .error e => .error e
            | .ok t2 =>
              match get_feature_list fs artDir with
              | .error e => .error e
              | .ok feats => .ok { t1 := t1, t2 := t2, feats := feats }

/-- What `load_flat_artifacts` returns (ml_inference.py line 65), with
the opaque model objects elided. -/
structure FlatBundleRaw where
  th : JVal
  feats : JVal

/-- `load_flat_artifacts` (ml_inference.py lines 52-65), in source
order: the two model files, the binary threshold, the manifest. -/
def load_flat_artifacts (fs : FS) (artDir : String) : Except LoadErr FlatBundleRaw :=
  match joblib_load fs (pathJoin artDir "rf_bin.joblib") with
  | .error e => .error e
  | .ok _ =>
    match joblib_load fs (pathJoin artDir "rf_tri.joblib") with
    | .error e => .error e
    | .ok _ =>
      match readJson fs (pathJoin artDir "bin_threshold.json") with
      | .error e => .error e
      | .ok j1 =>
        match getKey j1 "threshold" with
        | .error e => .error e
        | .ok th =>
          match get_feature_list fs artDir with
          | .error e => .error e
          | .ok feats => .ok { th := th, feats := feats }

/-- The file at `p` exists. -/
def hasFile (fs : FS) (p : String) : Bool :=
  (lookupFile fs p).isSome

/-- The file at `p` exists and parses as JSON. -/
def hasJson (fs : FS) (p : String) : Bool :=
  match lookupFile fs p with
  | some (.json _) => true
  | _ => false

/-- The file at `p` exists, parses as JSON, and subscripting
`"threshold"` succeeds. -/
def hasThresholdKey (fs : FS) (p : String) : Bool :=
  match lookupFile fs p with
  | some (.json j) => (jGet j "threshold").isSome
  | _ => false

/-- `q` is a numeric JSON value in `[0,1]`. -/
def numericInUnit : JVal → Prop
  | .jint n => 0 ≤ n ∧ n ≤ 1
  | .jfloat q => 0 ≤ q ∧ q ≤ 1
  | _ => False

/-- The JSON value is a non-empty array (a non-empty feature
manifest). -/
def nonEmptyManifest : JVal → Prop
  | .jarr xs => xs ≠ []
  | _ => False

/-- One line of a Suricata EVE log as seen by
`suricata_eve_to_features_df`: whitespace-only, text that
`json.loads` rejects, or a parsed JSON value. -/
inductive EveLine where
  | blank
  | bad
  | json (j : JVal)

/-- The exception the adapter loop can raise: `AttributeError` from
calling `.get` on a parsed value that is not an object. -/
inductive AdapterErr where
  | attributeError
deriving DecidableEq, Repr

/-- A parsed JSON value placed into a feature cell of the pre-coercion
row.  JSON `null` is modelled as a missing cell; container values do
not occur in the inputs the claims range over and are collapsed to an
opaque string. -/
def jvalToCell : JVal → Cell
  | .jstr s => .str s
  | .jint n => .int n
  | .jfloat q => .float q
  | .jbool b => .bool b
  | .jnull => .none
  | .jarr _ => .str "<list>"
  | .jobj _ => .str "<dict>"

/-- Python falsiness of a JSON value, as `x or "unknown"` tests it. -/
def isFalsy : JVal → Bool
  | .jnull => true
  | .jbool b => !b
  | .jint n => n == 0
  | .jfloat q => q == 0
  | .jstr s => s == ""
  | .jarr xs => xs.isEmpty
  | .jobj fields => fields.isEmpty

/-- The body of the `suricata_eve_to_features_df` loop for one line
(ml_inference.py lines 223-243): skip blank and unparseable lines; on a
parsed value, compare `event_type` with `"flow"` — an `AttributeError`
is raised there when the value is not an object — skip non-flow
events; on a kept record, build the seven cells with the documented
defaults (`service` additionally replaces falsy values by
`"unknown"`), raising when the `flow` field holds a non-object. -/
def eveProcessLine : EveLine → Except AdapterErr (Option RawRow)
  | .blank => .ok Option.none
  | .bad => .ok Option.none
  | .json j =>
    match j with
    | .jobj fields =>
      if (match jGet (.jobj fields) "event_type" with
          | some (.jstr s) => s == "flow"
          | _ => false) then
        match (jGet (.jobj fields) "flow").getD (.jobj []) with
        | .jobj ff =>
          .ok (some
            { proto := jvalToCell ((jGet (.jobj fields) "proto").getD (.jstr "unknown"))
              service :=
                match jGet (.jobj fields) "app_proto" with
                | Option.none => .str "unknown"
                | some v => if isFalsy v then .str "unknown" else jvalToCell v
              spkts := jvalToCell ((jGet (.jobj ff) "pkts_toserver").getD (.jint 0))
              dpkts := jvalToCell ((jGet (.jobj ff) "pkts_toclient").getD (.jint 0))
              sbytes := jvalToCell ((jGet (.jobj ff) "bytes_toserver").getD (.jint 0))
              dbytes := jvalToCell ((jGet (.jobj ff) "bytes_toclient").getD (.jint 0))
              dur := jvalToCell ((jGet (.jobj ff) "duration").getD (.jfloat 0)) })
        | _ => .error .attributeError
      else .ok Option.none
    | _ => .error .attributeError

/-- The whole adapter loop: rows of the kept records in order, or the
first raised error. -/
def eveCollect : List EveLine → Except AdapterErr (List RawRow)
  | [] => .ok []
  | l :: ls =>
    match eveProcessLine l with
    | .error e => .error e
    | .ok Option.none => eveCollect ls
    | .ok (some r) =>
      match eveCollect ls with
      | .error e => .error e
      | .ok rs => .ok (r :: rs)

/-- `suricata_eve_to_features_df` (ml_inference.py lines 212-246):
collect the kept rows and pass the resulting table through
`_ensure_types`.  The feature manifest read from `features.json` is
assumed to hold the canonical seven names in order, as the artifact
contract (§3) requires. -/
def suricata_eve_to_features_df (lines : List EveLine) : Except AdapterErr (List Row) :=
  (eveCollect lines).map (fun rows => rows.map ensureTypes)

/-- The errors `main` in classify_flows.py surfaces after adaptation:
the distinct empty-result `SystemExit` (line 77); configuration errors
are a different type (`LoadErr`) raised later, inside prediction. -/
inductive MainErr where
  | noFlows
deriving DecidableEq, Repr

/-- The tail of `main` (classify_flows.py lines 76-91) in hierarchical
mode, once the adapter has produced the feature table: raise the
empty-result error when the table is empty, otherwise run
`save_predictions_csv` — scoring and the file write both live inside
that call, so an `.ok` value is exactly the written table. -/
def mainClassifyHier (art : HierArt) (dfFeats : List Row) : Except MainErr (List DfOutRow) :=
  if dfFeats.isEmpty then .error .noFlows
  else .ok (save_predictions_csv_hier art dfFeats)

/-- Whether an `Except` computation finished without raising. -/
def exceptOk {ε α : Type} : Except ε α → Bool
  | .ok _ => true
  | .error _ => false

/-- A raw row whose `proto` cell is a missing value. -/
def rawMissingProto : RawRow :=
  { proto := Cell.none
    service := Cell.str "http"
    spkts := Cell.int 1
    dpkts := Cell.int 2
    sbytes := Cell.int 3
    dbytes := Cell.int 4
    dur := Cell.float (mkRat 1 2) }

/-- A raw row with every cell missing. -/
def rawAllNone : RawRow :=
  { proto := Cell.none
    service := Cell.none
    spkts := Cell.none
    dpkts := Cell.none
    sbytes := Cell.none
    dbytes := Cell.none
    dur := Cell.none }

/-- A bundle whose Stage-1 classifier is internally consistent (its
`predict` is its `predict_proba` cut at the conventional 0.5) but whose
deployment threshold `t1 = 0.7` sits above the model's own cutoff: the
row scores 0.6. Thresholds lie in `[0,1]` as §3 requires. -/
def cexBundle : Bundle :=
  { pipeBin := { predict := fun _ => Cell.int 1, predictProba := fun _ => mkRat 3 5 }
    pipeDos := { predict := fun _ => Cell.int 0, predictProba := fun _ => mkRat 0 1 }
    t1 := mkRat 7 10
    t2 := mkRat 1 2 }

/-- A concrete canonical record for the refinement counterexample. -/
def cexRow : Row :=
  { proto := "tcp"
    service := "http"
    spkts := 10
    dpkts := 8
    sbytes := 1500
    dbytes := 2000
    dur := mkRat 0 1 }

/-- An artifact directory whose files all exist and parse, but whose
binary threshold is 2.5 (outside `[0,1]`), whose DoS threshold is a
string, and whose feature manifest is the empty list. -/
def fsBad : FS :=
  { files := [
      ("models/rf_bin.joblib", FileContent.binary),
      ("models/rf_dos_vs_other.joblib", FileContent.binary),
      ("models/rf_tri.joblib", FileContent.binary),
      ("models/bin_threshold.json", FileContent.json (JVal.jobj [("threshold", JVal.jfloat (mkRat 5 2))])),
      ("models/dos_threshold.json", FileContent.json (JVal.jobj [("threshold", JVal.jstr "high")])),
      ("models/features.json", FileContent.json (JVal.jarr []))] }

/-- The spec's §8 scenario line: a `flow` event with the five flow
statistics and no protocol or application-protocol fields. -/
def scenarioLine : EveLine :=
  EveLine.json (JVal.jobj [
    ("event_type", JVal.jstr "flow"),
    ("flow", JVal.jobj [
      ("pkts_toserver", JVal.jint 10),
      ("pkts_toclient", JVal.jint 8),
      ("bytes_toserver", JVal.jint 1500),
      ("bytes_toclient", JVal.jint 2000),
      ("duration", JVal.jfloat (mkRat 9 20))])])

/-- The canonical row the §8 scenario expects. -/
def scenarioRow : Row :=
  { proto := "unknown"
    service := "unknown"
    spkts := 10
    dpkts := 8
    sbytes := 1500
    dbytes := 2000
    dur := mkRat 9 20 }

/-- Artifacts whose Stage-1 score sits exactly on `t1` and whose
Stage-2 score sits exactly on `t2` for every row. -/
def wArt5 : HierArt :=
  { pipeBin := fun _ => mkRat 1 2
    pipeDos := fun _ => mkRat 3 10
    t1 := mkRat 1 2
    t2 := mkRat 3 10 }

/-- A concrete canonical record for the threshold-boundary failing
input. -/
def wRow5 : Row :=
  { proto := "tcp"
    service := "ftp"
    spkts := 4
    dpkts := 4
    sbytes := 400
    dbytes := 800
    dur := mkRat 2 1 }

/-- Artifacts whose Stage-1 gate rejects every row (score 0 below
threshold 0.5); the Stage-2 scorer answers 1 everywhere. -/
def wArt6 : HierArt :=
  { pipeBin := fun _ => mkRat 0 1
    pipeDos := fun _ => mkRat 1 1
    t1 := mkRat 1 2
    t2 := mkRat 1 2 }

/-- Same gate as `wArt6` but a Stage-2 scorer that answers 0 everywhere:
the two differ only on rows Stage 1 rejects. -/
def wArt6b : HierArt :=
  { pipeBin := fun _ => mkRat 0 1
    pipeDos := fun _ => mkRat 0 1
    t1 := mkRat 1 2
    t2 := mkRat 1 2 }

/-- A concrete canonical record for the gating witness. -/
def wRow6 : Row :=
  { proto := "icmp"
    service := "unknown"
    spkts := 1
    dpkts := 1
    sbytes := 60
    dbytes := 60
    dur := mkRat 0 1 }

/-- Artifacts for the invariant witness: every row gated malicious,
Stage-2 score below `t2`. -/
def wArt7 : HierArt :=
  { pipeBin := fun _ => mkRat 9 10
    pipeDos := fun _ => mkRat 1 10
    t1 := mkRat 1 2
    t2 := mkRat 1 2 }

/-- Serving models for the invariant witness: the binary model answers
the text label `normal`. -/
def wServe7 : ServeModels :=
  { modelBin := fun _ => Cell.str "normal"
    modelDos := fun _ => Cell.str "dos" }

/-- A concrete canonical record for the invariant witness. -/
def wRow7 : Row :=
  { proto := "tcp"
    service := "ssh"
    spkts := 20
    dpkts := 18
    sbytes := 3000
    dbytes := 2800
    dur := mkRat 5 1 }

/- ------------------------------------------------------------------ -/
/- Theorems                                                           -/
/- ------------------------------------------------------------------ -/

/-- The output table of `_ensure_types` fed back through `_ensure_types`
is unchanged: each column is already in its target dtype. -/
theorem ensureTypes_toRaw (r : Row) : ensureTypes r.toRaw = r := by
  simp [ensureTypes, Row.toRaw, coerceInt, coerceFloat, toNumeric, pyStr, ratTrunc]

/-- C8: the coercion step is idempotent — for every input row, applying
the coercion twice yields exactly the same row as applying it once. -/
theorem coercion_idempotent (r : RawRow) :
    ensureTypes (ensureTypes r).toRaw = ensureTypes r :=
  ensureTypes_toRaw (ensureTypes r)

/-- C5, evaluated at the failing input: the Stage-1 boundary behaves
as claimed (a score exactly equal to `t1` is labelled 1 = attack), but
the Stage-2 boundary does not — `wArt5` scores the record exactly `t2`
on Stage 2, and line 146's `(s_dos >= t2).astype(int) + 1` assigns tri
code 2, whose final label is `other_attack`, not the `dos` that the
claim, spec §4.4, the function's docstring and the line's own
`# 1=DoS, 2=Other` comment all state. -/
theorem threshold_boundary_bug :
    wArt5.pipeBin wRow5 = wArt5.t1 ∧
    wArt5.pipeDos wRow5 = wArt5.t2 ∧
    (predictHierFromDf wArt5 [wRow5]).binaryLabels[0]? = some 1 ∧
    (predictHierFromDf wArt5 [wRow5]).triLabels[0]? = some 2 ∧
    (finalLabels wArt5 [wRow5])[0]? = some "other_attack" := by
  refine ⟨rfl, rfl, ?_, ?_, ?_⟩ <;> decide

/-- C10: when adaptation yields zero rows, the batch pipeline surfaces
the distinct empty-result error, and the result does not depend on the
classifiers at all — no scoring happens and, since the written table is
the `.ok` payload, no output is produced. -/
theorem empty_fails_before_scoring (art art2 : HierArt) :
    mainClassifyHier art [] = .error .noFlows ∧
    mainClassifyHier art [] = mainClassifyHier art2 [] := by
  constructor <;> rfl

/-- Counterexample for C3: a missing `proto` cell is coerced to the
string `"nan"`, not to the sentinel `"unknown"` — the sentinel is
applied by the log adapters, not by the coercion step. -/
theorem coercion_unknown_cex :
    (ensureTypes rawMissingProto).proto ≠ "unknown" := by
  decide

/-- C3 as amended: `proto`/`service` are coerced to the text rendering
of their value (a missing value becomes `"nan"`, not `"unknown"`); the
four count fields become 0 when non-numeric or missing; `dur` becomes 0
when non-numeric or missing; and the coercion is total — it never
fails. -/
theorem coercion_amended (r : RawRow) :
    (ensureTypes r).proto = pyStr r.proto ∧
    (ensureTypes r).service = pyStr r.service ∧
    (r.proto = Cell.none → (ensureTypes r).proto = "nan") ∧
    (toNumeric r.spkts = Option.none → (ensureTypes r).spkts = 0) ∧
    (toNumeric r.dpkts = Option.none → (ensureTypes r).dpkts = 0) ∧
    (toNumeric r.sbytes = Option.none → (ensureTypes r).sbytes = 0) ∧
    (toNumeric r.dbytes = Option.none → (ensureTypes r).dbytes = 0) ∧
    (toNumeric r.dur = Option.none → (ensureTypes r).dur = 0) := by
  refine ⟨rfl, rfl, ?_, ?_, ?_, ?_, ?_, ?_⟩ <;> intro h <;>
    simp [ensureTypes, coerceInt, coerceFloat, pyStr, ratTrunc, h]

/-- Witness for C3: the all-missing row coerces to `"nan"` text and
zero numerics. -/
theorem coercion_amended_witness :
    (ensureTypes rawAllNone).proto = "nan" ∧
    (ensureTypes rawAllNone).spkts = 0 ∧
    (ensureTypes rawAllNone).dur = 0 :=
  ⟨(coercion_amended rawAllNone).2.2.1 rfl,
   (coercion_amended rawAllNone).2.2.2.1 rfl,
   (coercion_amended rawAllNone).2.2.2.2.2.2.2 rfl⟩

/-- Counterexample for C4: the unrecognized integer output 2 is mapped
by the Stage-1 normalizer to the negative class (normal), and the
unrecognized text output `"scan"` is mapped by the Stage-2 normalizer
to the negative class (other_attack) — neither falls back to the
positive class as claimed. -/
theorem label_fallback_cex :
    is_attack_label (Cell.int 2) = false ∧ is_dos_label (Cell.str "scan") = false := by
  decide

/-- C4 as amended: the conservative else-positive fallback exists only
in Stage 1's string branch.  Stage 1 maps an int-like output to attack
exactly when it equals 1, and any other output to attack unless its
lower-cased text is `"normal"`; Stage 2 maps an int-like output to dos
exactly when it equals 1, and any other output to dos only when its
lower-cased text is `"dos"` — unknown Stage-2 outputs fall to
other_attack, and unknown integers fall to the negative class in both
stages. -/
theorem label_fallback_amended (c : Cell) :
    (is_attack_label c = false ↔
      (∃ n, c = Cell.int n ∧ n ≠ 1) ∨ c = Cell.bool false ∨
      ((∀ n, c ≠ Cell.int n) ∧ (∀ b, c ≠ Cell.bool b) ∧ pyLower (pyStr c) = "normal")) ∧
    (is_dos_label c = true ↔
      c = Cell.int 1 ∨ c = Cell.bool true ∨
      ((∀ n, c ≠ Cell.int n) ∧ (∀ b, c ≠ Cell.bool b) ∧ pyLower (pyStr c) = "dos")) := by
  cases c <;> simp [is_attack_label, is_dos_label]

/-- C7: in hierarchical mode the subtype is defined iff the binary
label is attack, in both entry points.  Batch: the tri label is 0
(no subtype) iff the binary label is 0, and the final label is
`normal` iff the binary label is 0.  Serving: `dos_vs_other_label` is
non-null iff `bin_label` is `attack`, and `final_label` is `normal`
iff `bin_label` is `normal`. -/
theorem subtype_defined_iff_attack (art : HierArt) (df : List Row) (i : Nat) (r : Row)
    (hr : df[i]? = some r) (m : ServeModels) (row : Row) :
    ((predictHierFromDf art df).triLabels[i]? = some 0 ↔
      (predictHierFromDf art df).binaryLabels[i]? = some 0) ∧
    ((finalLabels art df)[i]? = some "normal" ↔
      (predictHierFromDf art df).binaryLabels[i]? = some 0) ∧
    ((classify_flow m row).dos_vs_other_label ≠ Option.none ↔
      (classify_flow m row).bin_label = "attack") ∧
    ((classify_flow m row).final_label = "normal" ↔
      (classify_flow m row).bin_label = "normal") := by
  refine ⟨?_, ?_, ?_, ?_⟩
  · simp only [predictHierFromDf, List.getElem?_map, hr, Option.map_some]
    cases h : isMal art r
    · simp [triOf, h]
    · cases h2 : decide (art.t2 ≤ sDos art r) <;> simp [triOf, h, h2]
  · simp only [finalLabels, predictHierFromDf, List.getElem?_map, hr, Option.map_some]
    cases h : isMal art r
    · simp [triOf, h, TRI_LABEL_NAMES]
    · cases h2 : decide (art.t2 ≤ sDos art r) <;> simp [triOf, h, h2, TRI_LABEL_NAMES]
  · cases h : is_attack_label (m.modelBin row) <;> simp [classify_flow, h]
  · cases h : is_attack_label (m.modelBin row)
    · simp [classify_flow, h]
    · cases hd : is_dos_label (m.modelDos row) <;> simp [classify_flow, h, hd]

/-- Witness for C7 at concrete artifacts, models and records. -/
theorem subtype_defined_iff_attack_witness :
    ((predictHierFromDf wArt7 [wRow7]).triLabels[0]? = some 0 ↔
      (predictHierFromDf wArt7 [wRow7]).binaryLabels[0]? = some 0) ∧
    ((finalLabels wArt7 [wRow7])[0]? = some "normal" ↔
      (predictHierFromDf wArt7 [wRow7]).binaryLabels[0]? = some 0) ∧
    ((classify_flow wServe7 wRow7).dos_vs_other_label ≠ Option.none ↔
      (classify_flow wServe7 wRow7).bin_label = "attack") ∧
    ((classify_flow wServe7 wRow7).final_label = "normal" ↔
      (classify_flow wServe7 wRow7).bin_label = "normal") :=
  subtype_defined_iff_attack wArt7 [wRow7] 0 wRow7 rfl wServe7 wRow7

/-- C6: Stage 2 is applied to exactly the rows whose Stage-1 score
passes `t1`.  Two artifact sets sharing the gate and thresholds whose
Stage-2 scorers agree on every gated-malicious row of the table produce
identical output — the Stage-2 classifier is never consulted on a
non-malicious row — and a row gated non-malicious keeps the default 0
in the full-length Stage-2 score vector, tri label 0, and final label
`normal`; conversely, every row gated malicious gets the Stage-2
classifier's probability in the score vector. -/
theorem stage2_gating (art art2 : HierArt) (df : List Row) (i : Nat) (r : Row)
    (hbin : art2.pipeBin = art.pipeBin) (ht1 : art2.t1 = art.t1) (ht2 : art2.t2 = art.t2)
    (hagree : ∀ s ∈ df, isMal art s = true → art2.pipeDos s = art.pipeDos s)
    (hr : df[i]? = some r) (hnm : isMal art r = false) :
    predictHierFromDf art2 df = predictHierFromDf art df ∧
    (sDosVec art df)[i]? = some 0 ∧
    (predictHierFromDf art df).triLabels[i]? = some 0 ∧
    (finalLabels art df)[i]? = some "normal" ∧
    (∀ (jj : Nat) (s : Row), df[jj]? = some s → isMal art s = true →
      (sDosVec art df)[jj]? = some (art.pipeDos s)) := by
  have hm : ∀ s, isMal art2 s = isMal art s := by
    intro s; simp [isMal, hbin, ht1]
  refine ⟨?_, ?_, ?_, ?_, ?_⟩
  · have h3 : df.map (triOf art2) = df.map (triOf art) := by
      apply List.map_congr_left
      intro s hs
      cases hms : isMal art s
      · simp [triOf, hm, hms]
      · simp [triOf, hm, hms, sDos, hagree s hs hms, ht2]
    simp [predictHierFromDf, hbin, hm, h3]
  · simp [sDosVec, List.getElem?_map, hr, sDos, hnm]
  · simp [predictHierFromDf, List.getElem?_map, hr, triOf, hnm]
  · simp [finalLabels, predictHierFromDf, List.getElem?_map, hr, triOf, hnm, TRI_LABEL_NAMES]
  · intro jj s hjj hms
    simp [sDosVec, List.getElem?_map, hjj, sDos, hms]

/-- Witness for C6: two artifact sets whose Stage-2 scorers disagree
everywhere, under a gate that rejects the record, give identical
output, and the record gets score 0 / label normal. -/
theorem stage2_gating_witness :
    predictHierFromDf wArt6b [wRow6] = predictHierFromDf wArt6 [wRow6] ∧
    (sDosVec wArt6 [wRow6])[0]? = some 0 ∧
    (predictHierFromDf wArt6 [wRow6]).triLabels[0]? = some 0 ∧
    (finalLabels wArt6 [wRow6])[0]? = some "normal" :=
  ⟨(stage2_gating wArt6 wArt6b [wRow6] 0 wRow6 rfl rfl rfl
      (fun _ _ hmal => Bool.noConfusion hmal) rfl (by decide)).1,
   (stage2_gating wArt6 wArt6b [wRow6] 0 wRow6 rfl rfl rfl
      (fun _ _ hmal => Bool.noConfusion hmal) rfl (by decide)).2.1,
   (stage2_gating wArt6 wArt6b [wRow6] 0 wRow6 rfl rfl rfl
      (fun _ _ hmal => Bool.noConfusion hmal) rfl (by decide)).2.2.1,
   (stage2_gating wArt6 wArt6b [wRow6] 0 wRow6 rfl rfl rfl
      (fun _ _ hmal => Bool.noConfusion hmal) rfl (by decide)).2.2.2.1⟩

/-- Counterexample for C1: with one artifact bundle (thresholds in
`[0,1]`, Stage-1 `predict` consistent with its own probability at the
conventional 0.5 cutoff) and one canonical record, the Single-Record
Runner answers attack/other_attack while the Batch Runner in
hierarchical mode answers normal: the serving path never consults
`t1`/`t2`, so the two entry points disagree whenever the model's
internal cutoff and the deployment threshold straddle a score. -/
theorem single_record_vs_batch_cex :
    classify_flow (serveView cexBundle) cexRow ≠ batchSingle cexBundle cexRow := by
  decide

/-- C1 as amended: the two entry points agree at a record exactly when
the Stage-1 normalized `predict` label agrees with the thresholded
Stage-1 probability and, whenever that gate fires, the Stage-2
normalized `predict` label is the NEGATION of the thresholded Stage-2
probability.  The negation is forced by ml_inference.py:146, which
assigns tri = 2 = other_attack when `s_dos >= t2` while the server
assigns `dos` when the predict label normalizes to dos; and serving
never consults `t1`/`t2` at all, so in general the outputs are not
bit-identical. -/
theorem single_record_agreement_iff (b : Bundle) (row : Row) :
    classify_flow (serveView b) row = batchSingle b row ↔
      (is_attack_label (b.pipeBin.predict row) =
          decide (b.t1 ≤ b.pipeBin.predictProba row) ∧
        (decide (b.t1 ≤ b.pipeBin.predictProba row) = true →
          is_dos_label (b.pipeDos.predict row) =
            !decide (b.t2 ≤ b.pipeDos.predictProba row))) := by
  by_cases h2 : b.t1 ≤ b.pipeBin.predictProba row <;>
    by_cases h4 : b.t2 ≤ b.pipeDos.predictProba row <;>
      cases h1 : is_attack_label (b.pipeBin.predict row) <;>
        cases h3 : is_dos_label (b.pipeDos.predict row) <;>
          simp [classify_flow, serveView, batchSingle, predictHierFromDf, bundleArt,
            isMal, triOf, sDos, h1, h2, h3, h4, binName, TRI_LABEL_NAMES]

/-- Counterexample for C2: an artifact directory whose threshold files
hold 2.5 (not in `[0,1]`) and a string (not numeric at all), and whose
feature manifest is the empty list, loads successfully in both modes —
the loaders perform no validation of threshold values or manifest
contents. -/
theorem loader_no_validation_cex :
    exceptOk (load_hier_artifacts fsBad "models") = true ∧
    exceptOk (load_flat_artifacts fsBad "models") = true ∧
    ¬ numericInUnit (JVal.jfloat (mkRat 5 2)) ∧
    ¬ numericInUnit (JVal.jstr "high") ∧
    ¬ nonEmptyManifest (JVal.jarr []) := by
  refine ⟨rfl, rfl, ?_, ?_, ?_⟩
  · simp only [numericInUnit]
    decide
  · simp [numericInUnit]
  · simp [nonEmptyManifest]

/-- C2 as amended: loading fails exactly when a required file is
missing (a non-existent directory makes all of them missing), a JSON
artifact does not parse, or a threshold file's parsed value does not
support the `"threshold"` subscript; the parsed threshold's numeric
range and the manifest's shape are not checked.  All-or-nothing
loading stands: the `Except` result is either a complete bundle or an
error, never a partial bundle. -/
theorem loader_failure_amended (fs : FS) (d : String) :
    (exceptOk (load_hier_artifacts fs d) =
      (hasFile fs (pathJoin d "rf_bin.joblib") &&
       hasFile fs (pathJoin d "rf_dos_vs_other.joblib") &&
       hasThresholdKey fs (pathJoin d "bin_threshold.json") &&
       hasThresholdKey fs (pathJoin d "dos_threshold.json") &&
       hasJson fs (pathJoin d "features.json"))) ∧
    (exceptOk (load_flat_artifacts fs d) =
      (hasFile fs (pathJoin d "rf_bin.joblib") &&
       hasFile fs (pathJoin d "rf_tri.joblib") &&
       hasThresholdKey fs (pathJoin d "bin_threshold.json") &&
       hasJson fs (pathJoin d "features.json"))) := by
  constructor
  · simp only [load_hier_artifacts, joblib_load, readJson, getKey, get_feature_list,
      hasFile, hasJson, hasThresholdKey]
    rcases h1 : lookupFile fs (pathJoin d "rf_bin.joblib") with _ | c1 <;>
      rcases h2 : lookupFile fs (pathJoin d "rf_dos_vs_other.joblib") with _ | c2 <;>
        rcases h3 : lookupFile fs (pathJoin d "bin_threshold.json") with _ | (_ | j3 | _) <;>
          try simp_all [exceptOk]
    all_goals rcases h4 : jGet j3 "threshold" with _ | t1v <;> try simp_all [exceptOk]
    all_goals rcases h5 : lookupFile fs (pathJoin d "dos_threshold.json") with _ | (_ | j5 | _) <;>
      try simp_all [exceptOk]
    all_goals rcases h6 : jGet j5 "threshold" with _ | t2v <;> try simp_all [exceptOk]
    all_goals rcases h7 : lookupFile fs (pathJoin d "features.json") with _ | (_ | j7 | _) <;>
      simp_all [exceptOk]
  · simp only [load_flat_artifacts, joblib_load, readJson, getKey, get_feature_list,
      hasFile, hasJson, hasThresholdKey]
    rcases h1 : lookupFile fs (pathJoin d "rf_bin.joblib") with _ | c1 <;>
      rcases h2 : lookupFile fs (pathJoin d "rf_tri.joblib") with _ | c2 <;>
        rcases h3 : lookupFile fs (pathJoin d "bin_threshold.json") with _ | (_ | j3 | _) <;>
          try simp_all [exceptOk]
    all_goals rcases h4 : jGet j3 "threshold" with _ | t1v <;> try simp_all [exceptOk]
    all_goals rcases h7 : lookupFile fs (pathJoin d "features.json") with _ | (_ | j7 | _) <;>
      simp_all [exceptOk]

/-- Counterexample for C9: a line that parses as the JSON number 7 is
neither an unparseable line nor a `flow` record, yet the adapter raises
(`.get` on a non-object) instead of skipping it. -/
theorem eve_nonobject_cex :
    suricata_eve_to_features_df [EveLine.json (JVal.jint 7)] = .error .attributeError := rfl

/-- C9 as amended: the adapter emits a canonical row for exactly the
lines parsing to a JSON object with `event_type = "flow"`; blank
lines, unparseable lines and object lines with any other event type
are skipped without raising; but a line parsing to a non-object JSON
value raises.  The §8 scenario holds: the `flow` record with the five
flow statistics and no protocol/app-protocol fields yields exactly the
canonical row `("unknown", "unknown", 10, 8, 1500, 2000, 0.45)`. -/
theorem eve_adapter_amended (j : JVal) (fields : List (String × JVal)) :
    eveProcessLine EveLine.blank = .ok Option.none ∧
    eveProcessLine EveLine.bad = .ok Option.none ∧
    ((∀ fs2, j ≠ JVal.jobj fs2) → eveProcessLine (EveLine.json j) = .error .attributeError) ∧
    ((match jGet (JVal.jobj fields) "event_type" with
      | some (.jstr s) => s == "flow"
      | _ => false) = false →
      eveProcessLine (EveLine.json (JVal.jobj fields)) = .ok Option.none) ∧
    suricata_eve_to_features_df [scenarioLine] = .ok [scenarioRow] := by
  refine ⟨rfl, rfl, ?_, ?_, rfl⟩
  · intro hno
    cases j <;> first | rfl | exact absurd rfl (hno _)
  · intro hskip
    simp [eveProcessLine, hskip]

/-- Witness for C9 as amended: a numeric line raises, an `alert` event
is skipped, and the scenario line produces the scenario row. -/
theorem eve_adapter_witness :
    eveProcessLine (EveLine.json (JVal.jint 7)) = .error .attributeError ∧
    eveProcessLine (EveLine.json (JVal.jobj [("event_type", JVal.jstr "alert")])) = .ok Option.none ∧
    suricata_eve_to_features_df [scenarioLine] = .ok [scenarioRow] :=
  ⟨(eve_adapter_amended (JVal.jint 7) []).2.2.1 (fun _ h => JVal.noConfusion h),
   (eve_adapter_amended JVal.jnull [("event_type", JVal.jstr "alert")]).2.2.2.1 rfl,
   (eve_adapter_amended JVal.jnull []).2.2.2.2⟩

end NSA
